import Mathlib

/-!
Verification development for the wearable gait-analysis firmware
(`main.ino`).  The firmware integrates three IMUs behind an I2C
multiplexer, two piezo step sensors, a GPS receiver, SD-card CSV logging
and an OLED display, driven from one cooperative polling loop.

Shallow embedding conventions:
* `unsigned long` / `uint32_t` values (the millisecond clock, the step
  counters) are modelled as `Nat` with explicit reduction modulo `2 ^ 32`
  where C arithmetic wraps; the C expression `a - b` on unsigned operands
  is modelled by `usub`.
* `int` analog readings are modelled as `Int`.
* `double` / `float` quantities of the GPS path are modelled as `ℝ`
  (the trigonometric haversine computation forces this); `float` IMU
  samples and calibration constants are modelled as `ℚ`, which keeps the
  calibration layer executable.
* The Arduino constant `DEG_TO_RAD` is modelled as `π / 180`.
* Each C function mutating a global becomes a function from the old state
  (plus the inputs the hardware supplies for that call) to the new state.
-/

namespace GaitMonitor

/-- Modulus of 32-bit unsigned arithmetic (`unsigned long` / `uint32_t`
on the ESP32 target). -/
def MOD32 : Nat := 4294967296

/-- Wrapping subtraction of 32-bit unsigned values, the meaning of
`a - b` in C when both operands are `unsigned long`. -/
def usub (a b : Nat) : Nat := (a % MOD32 + MOD32 - b % MOD32) % MOD32

/-- `const unsigned long DEBOUNCE_TIME = 200;` minimum step interval. -/
def DEBOUNCE_TIME : Nat := 200

/-- `const unsigned long GPS_UPDATE_INTERVAL = 1000;` GPS polling interval. -/
def GPS_UPDATE_INTERVAL : Nat := 1000

/-- `const unsigned long SENSOR_UPDATE_INTERVAL = 100;` IMU sampling rate. -/
def SENSOR_UPDATE_INTERVAL : Nat := 100

/-- `const unsigned long PIEZO_UPDATE_INTERVAL = 20;` piezo sampling rate. -/
def PIEZO_UPDATE_INTERVAL : Nat := 20

/-- Container for step detection metrics, mirroring `struct StepData`.
All five counters are `uint32_t`; the two timestamps are `unsigned long`. -/
structure StepData where
  totalSteps : Nat
  normal_L_steps : Nat
  normal_R_steps : Nat
  strong_L_steps : Nat
  strong_R_steps : Nat
  lastLeftStep : Nat
  lastRightStep : Nat
  deriving DecidableEq, Repr

/-- The all-zero initial value `StepData stepData = {0,0,0,0,0,0,0};`. -/
def stepDataInit : StepData := ⟨0, 0, 0, 0, 0, 0, 0⟩

/-- Left-foot block of `readPiezoSensors()`: detect threshold 600,
strong threshold 700, debounced by
`(currentMillis - stepData.lastLeftStep) > DEBOUNCE_TIME` in wrapping
unsigned arithmetic. -/
def leftFootDetect (currentMillis : Nat) (leftValue : Int) (s : StepData) :
    StepData :=
  if leftValue > 600 ∧ usub currentMillis s.lastLeftStep > DEBOUNCE_TIME then
    let s0 :=
      if leftValue < 700 then
        { s with normal_L_steps := (s.normal_L_steps + 1) % MOD32 }
      else
        { s with strong_L_steps := (s.strong_L_steps + 1) % MOD32 }
    { s0 with totalSteps := (s0.totalSteps + 1) % MOD32,
              lastLeftStep := currentMillis }
  else s

/-- Right-foot block of `readPiezoSensors()`: detect threshold 80,
strong threshold 120, debounced on `stepData.lastRightStep`. -/
def rightFootDetect (currentMillis : Nat) (rightValue : Int) (s : StepData) :
    StepData :=
  if rightValue > 80 ∧ usub currentMillis s.lastRightStep > DEBOUNCE_TIME then
    let s0 :=
      if rightValue < 120 then
        { s with normal_R_steps := (s.normal_R_steps + 1) % MOD32 }
      else
        { s with strong_R_steps := (s.strong_R_steps + 1) % MOD32 }
    { s0 with totalSteps := (s0.totalSteps + 1) % MOD32,
              lastRightStep := currentMillis }
  else s

/-- Embedding of `readPiezoSensors()`.  The hardware inputs of one call
are the clock value `millis()` and the two `analogRead` results; the
function runs the left-foot detection block and then the right-foot
detection block on the shared `stepData` state, exactly as the source
does. -/
def readPiezoSensors (currentMillis : Nat) (leftValue rightValue : Int)
    (s : StepData) : StepData :=
  rightFootDetect currentMillis rightValue
    (leftFootDetect currentMillis leftValue s)

/-- Running the step-detection task over a whole sequence of scheduler
ticks; each list entry is one call of `readPiezoSensors` with its clock
value and the two analog readings. -/
def runPiezo (inputs : List (Nat × Int × Int)) (s : StepData) : StepData :=
  inputs.foldl (fun t p => readPiezoSensors p.1 p.2.1 p.2.2 t) s

/-- The step-counter invariant: the total equals the `uint32` sum of the
four classified counters. -/
def stepInv (s : StepData) : Prop :=
  s.totalSteps =
    (s.normal_L_steps + s.normal_R_steps + s.strong_L_steps + s.strong_R_steps) % MOD32

instance (s : StepData) : Decidable (stepInv s) := by
  unfold stepInv; infer_instance

/-- The guard under which one `readPiezoSensors` call accepts a left-foot
pulse, exactly as written in the source. -/
def leftAccepts (s : StepData) (currentMillis : Nat) (leftValue : Int) : Prop :=
  leftValue > 600 ∧ usub currentMillis s.lastLeftStep > DEBOUNCE_TIME

/-- The guard under which one `readPiezoSensors` call accepts a right-foot
pulse, exactly as written in the source. -/
def rightAccepts (s : StepData) (currentMillis : Nat) (rightValue : Int) : Prop :=
  rightValue > 80 ∧ usub currentMillis s.lastRightStep > DEBOUNCE_TIME

instance (s : StepData) (c : Nat) (v : Int) : Decidable (leftAccepts s c v) := by
  unfold leftAccepts; infer_instance

instance (s : StepData) (c : Nat) (v : Int) : Decidable (rightAccepts s c v) := by
  unfold rightAccepts; infer_instance

theorem stepInv_leftFootDetect (s : StepData) (now : Nat) (lv : Int)
    (h : stepInv s) : stepInv (leftFootDetect now lv s) := by
  unfold stepInv leftFootDetect MOD32 at *
  split
  · split <;> simp <;> omega
  · exact h

theorem stepInv_rightFootDetect (s : StepData) (now : Nat) (rv : Int)
    (h : stepInv s) : stepInv (rightFootDetect now rv s) := by
  unfold stepInv rightFootDetect MOD32 at *
  split
  · split <;> simp <;> omega
  · exact h

theorem stepInv_preserved (s : StepData) (now : Nat) (lv rv : Int)
    (h : stepInv s) : stepInv (readPiezoSensors now lv rv s) :=
  stepInv_rightFootDetect _ now rv (stepInv_leftFootDetect s now lv h)

theorem stepInv_runPiezo (inputs : List (Nat × Int × Int)) (s : StepData)
    (h : stepInv s) : stepInv (runPiezo inputs s) := by
  induction inputs generalizing s with
  | nil => exact h
  | cons p rest ih => exact ih _ (stepInv_preserved s p.1 p.2.1 p.2.2 h)

/-- `const double GPS_DISTANCE_THRESHOLD = 50.0;` movement threshold in
meters. -/
def GPS_DISTANCE_THRESHOLD : ℝ := 50.0

/-- Container for processed GPS information, mirroring `struct GPSData`:
current position in degrees, speed in km/h, cumulative distance in
meters. -/
structure GPSData where
  latitude : ℝ
  longitude : ℝ
  speed : ℝ
  totalDistance : ℝ

/-- The initial value `GPSData gpsData = {0, 0, 0, 0};`. -/
def gpsDataInit : GPSData := ⟨0, 0, 0, 0⟩

/-- One completed sentence from the TinyGPS++ parser, as observed by
`updateGPS()` through the accessors it calls: location validity and
freshness flags, coordinates in degrees, speed validity flag and speed
in km/h. -/
structure GPSFix where
  locValid : Bool
  locUpdated : Bool
  lat : ℝ
  lng : ℝ
  speedValid : Bool
  speedKmph : ℝ

open Classical

/-- The C library function `atan2(y, x)` on real arguments. -/
noncomputable def atan2 (y x : ℝ) : ℝ :=
  if 0 < x then Real.arctan (y / x)
  else if x < 0 ∧ 0 ≤ y then Real.arctan (y / x) + Real.pi
  else if x < 0 ∧ y < 0 then Real.arctan (y / x) - Real.pi
  else if x = 0 ∧ 0 < y then Real.pi / 2
  else if x = 0 ∧ y < 0 then -(Real.pi / 2)
  else 0

/-- The intermediate quantity `a` of `calculateDistance`:
`sin(dphi/2)^2 + cos(phi1) * cos(phi2) * sin(dlam/2)^2`, with the
degree inputs converted by `DEG_TO_RAD = pi / 180`. -/
noncomputable def haversineA (lat1 lon1 lat2 lon2 : ℝ) : ℝ :=
  Real.sin ((lat2 - lat1) * (Real.pi / 180) / 2) *
      Real.sin ((lat2 - lat1) * (Real.pi / 180) / 2) +
    Real.cos (lat1 * (Real.pi / 180)) * Real.cos (lat2 * (Real.pi / 180)) *
      (Real.sin ((lon2 - lon1) * (Real.pi / 180) / 2) *
        Real.sin ((lon2 - lon1) * (Real.pi / 180) / 2))

/-- Embedding of `calculateDistance(lat1, lon1, lat2, lon2)`: haversine
distance in meters on a sphere of radius `R = 6371e3`, computed as
`R * c` with `c = 2 * atan2(sqrt(a), sqrt(1-a))`. -/
noncomputable def calculateDistance (lat1 lon1 lat2 lon2 : ℝ) : ℝ :=
  6371000 *
    (2 * atan2 (Real.sqrt (haversineA lat1 lon1 lat2 lon2))
      (Real.sqrt (1 - haversineA lat1 lon1 lat2 lon2)))

/-- Position block of the `updateGPS()` body for one completed valid,
updated sentence: when both stored coordinates are nonzero the haversine
distance to the new fix is computed, and the fix is adopted (position
overwritten, distance added to the total) exactly when that distance
exceeds `GPS_DISTANCE_THRESHOLD` and a valid reported speed exceeds
2 km/h; otherwise (either stored coordinate still zero) the new
coordinates become the position unconditionally, with nothing added. -/
noncomputable def positionUpdate (fix : GPSFix) (g : GPSData) : GPSData :=
  if g.latitude ≠ 0 ∧ g.longitude ≠ 0 then
    if calculateDistance g.latitude g.longitude fix.lat fix.lng >
          GPS_DISTANCE_THRESHOLD ∧
        fix.speedValid = true ∧ fix.speedKmph > 2 then
      { g with
          totalDistance := g.totalDistance +
            calculateDistance g.latitude g.longitude fix.lat fix.lng,
          latitude := fix.lat, longitude := fix.lng }
    else g
  else
    { g with latitude := fix.lat, longitude := fix.lng }

/-- Speed block of the `updateGPS()` body: a valid speed is always
recorded, whether or not the position was adopted. -/
noncomputable def speedUpdate (fix : GPSFix) (g : GPSData) : GPSData :=
  if fix.speedValid then { g with speed := fix.speedKmph } else g

/-- Embedding of the body of `updateGPS()` for one completed sentence:
on a valid, updated location the position block runs and then the speed
block; otherwise the state is untouched. -/
noncomputable def processFix (fix : GPSFix) (g : GPSData) : GPSData :=
  if fix.locValid && fix.locUpdated then
    speedUpdate fix (positionUpdate fix g)
  else g

/-- One call of `updateGPS()` drains the serial buffer and processes each
completed fix in order; the byte-level feeding is abstracted into the
list of fixes the parser completes during the call. -/
noncomputable def updateGPS (fixes : List GPSFix) (g : GPSData) : GPSData :=
  fixes.foldl (fun s f => processFix f s) g

theorem atan2_nonneg (y x : ℝ) (hy : 0 ≤ y) : 0 ≤ atan2 y x := by
  unfold atan2
  have hpi := Real.pi_pos
  split
  · next hx =>
    have h0 : Real.arctan 0 ≤ Real.arctan (y / x) :=
      Real.arctan_strictMono.monotone (div_nonneg hy (le_of_lt hx))
    simpa [Real.arctan_zero] using h0
  · split
    · have h1 := Real.neg_pi_div_two_lt_arctan (y / x)
      linarith
    · split
      · next h => exact absurd h.2 (not_lt.mpr hy)
      · split
        · linarith
        · split
          · next h => exact absurd h.2 (not_lt.mpr hy)
          · exact le_refl 0

theorem calculateDistance_nonneg (lat1 lon1 lat2 lon2 : ℝ) :
    0 ≤ calculateDistance lat1 lon1 lat2 lon2 := by
  unfold calculateDistance
  have h := atan2_nonneg (Real.sqrt (haversineA lat1 lon1 lat2 lon2))
    (Real.sqrt (1 - haversineA lat1 lon1 lat2 lon2))
    (Real.sqrt_nonneg _)
  positivity

theorem speedUpdate_fields (f : GPSFix) (g : GPSData) :
    (speedUpdate f g).latitude = g.latitude ∧
    (speedUpdate f g).longitude = g.longitude ∧
    (speedUpdate f g).totalDistance = g.totalDistance ∧
    (speedUpdate f g).speed =
      (if f.speedValid then f.speedKmph else g.speed) := by
  unfold speedUpdate
  split <;> simp

theorem positionUpdate_seed (f : GPSFix) (g : GPSData)
    (h : ¬ (g.latitude ≠ 0 ∧ g.longitude ≠ 0)) :
    positionUpdate f g =
      { g with latitude := f.lat, longitude := f.lng } := by
  unfold positionUpdate
  rw [if_neg h]

theorem positionUpdate_adopt (f : GPSFix) (g : GPSData)
    (hnz : g.latitude ≠ 0 ∧ g.longitude ≠ 0)
    (hc : calculateDistance g.latitude g.longitude f.lat f.lng >
            GPS_DISTANCE_THRESHOLD ∧
          f.speedValid = true ∧ f.speedKmph > 2) :
    positionUpdate f g =
      { g with
          totalDistance := g.totalDistance +
            calculateDistance g.latitude g.longitude f.lat f.lng,
          latitude := f.lat, longitude := f.lng } := by
  unfold positionUpdate
  rw [if_pos hnz, if_pos hc]

theorem positionUpdate_keep (f : GPSFix) (g : GPSData)
    (hnz : g.latitude ≠ 0 ∧ g.longitude ≠ 0)
    (hc : ¬ (calculateDistance g.latitude g.longitude f.lat f.lng >
            GPS_DISTANCE_THRESHOLD ∧
          f.speedValid = true ∧ f.speedKmph > 2)) :
    positionUpdate f g = g := by
  unfold positionUpdate
  rw [if_pos hnz, if_neg hc]

theorem processFix_valid (f : GPSFix) (g : GPSData)
    (hv : f.locValid = true) (hu : f.locUpdated = true) :
    processFix f g = speedUpdate f (positionUpdate f g) := by
  unfold processFix
  rw [if_pos (by rw [hv, hu]; rfl)]

theorem processFix_invalid (f : GPSFix) (g : GPSData)
    (h : ¬ (f.locValid = true ∧ f.locUpdated = true)) :
    processFix f g = g := by
  unfold processFix
  rw [if_neg]
  simp only [Bool.and_eq_true]
  exact h

theorem positionUpdate_totalDistance_mono (f : GPSFix) (g : GPSData) :
    g.totalDistance ≤ (positionUpdate f g).totalDistance := by
  unfold positionUpdate
  split
  · split
    · simp only []
      have := calculateDistance_nonneg g.latitude g.longitude f.lat f.lng
      simp
      linarith
    · exact le_refl _
  · exact le_refl _

theorem processFix_totalDistance_mono (f : GPSFix) (g : GPSData) :
    g.totalDistance ≤ (processFix f g).totalDistance := by
  unfold processFix
  split
  · rw [(speedUpdate_fields f (positionUpdate f g)).2.2.1]
    exact positionUpdate_totalDistance_mono f g
  · exact le_refl _

/-- `#define NUM_IMUS 3`: number of IMU sensors. -/
def NUM_IMUS : Nat := 3

/-- The build-time array `CALIBRATION_OFFSETS[NUM_IMUS][6]`, written with
the same arithmetic the source uses; row order: right leg, left leg,
chest; column order: AccX, AccY, AccZ, GyroX, GyroY, GyroZ.  The `float`
literals are modelled as exact rationals. -/
def CALIBRATION_OFFSETS : Fin NUM_IMUS → Fin 6 → ℚ :=
  ![![0.12 - 1.2280, -0.15, -0.81 + 0.0525,
      0.005 - 0.0694, -0.002 + 0.0585, 0.003 - 0.0363],
    ![-0.08 - 1.1284, 0.15, -0.76 + 1.4918 - 1,
      0.002 - 0.0655, 0.004 - 0.0116, -0.001 - 0.0273],
    ![0.30, -0.02 - 0.3162, -0.83 + 1.7669 - 1,
      -0.003 + 0.0201, 0.001 - 0.0122, 0.002 + 0.0077]]

/-- Container for IMU sensor readings, mirroring `struct SensorData`:
raw and calibrated accelerometer and gyroscope axes. -/
structure SensorData where
  accel : Fin 3 → ℚ
  gyro : Fin 3 → ℚ
  calibratedAccel : Fin 3 → ℚ
  calibratedGyro : Fin 3 → ℚ

/-- The axes delivered by one successful `getEvent` call on one IMU. -/
structure IMUReading where
  accel : Fin 3 → ℚ
  gyro : Fin 3 → ℚ

/-- Embedding of `readAllIMUs()`.  For each sensor index the hardware
either fails the read (`none`: the slot keeps its previous value, the
loop continues with the next sensor) or yields a raw sample (`some`:
raw axes are stored and the calibrated axes are computed as raw minus
the per-sensor offsets, columns 0-2 for accel and 3-5 for gyro). -/
def readAllIMUs (events : Fin NUM_IMUS → Option IMUReading)
    (prev : Fin NUM_IMUS → SensorData) : Fin NUM_IMUS → SensorData :=
  fun i =>
    match events i with
    | none => prev i
    | some e =>
      { accel := e.accel
        gyro := e.gyro
        calibratedAccel := fun j =>
          e.accel j - CALIBRATION_OFFSETS i (Fin.castLE (by omega) j)
        calibratedGyro := fun j =>
          e.gyro j - CALIBRATION_OFFSETS i ⟨j.val + 3, by omega⟩ }

/-- The five last-run timestamps the cooperative loop keeps:
`lastGpsUpdate`, `lastSensorUpdate`, `lastPiezoUpdate`, `lastLogTime`
and the `static` local `lastDisplayUpdate`, all `unsigned long`. -/
structure SchedTimers where
  lastGpsUpdate : Nat
  lastSensorUpdate : Nat
  lastPiezoUpdate : Nat
  lastLogTime : Nat
  lastDisplayUpdate : Nat
  deriving DecidableEq, Repr

/-- Result of one pass of `loop()`: the updated timers plus one flag per
task recording whether its body ran in this pass. -/
structure LoopResult where
  timers : SchedTimers
  ranGps : Bool
  ranImu : Bool
  ranPiezo : Bool
  ranLog : Bool
  ranDisplay : Bool
  deriving DecidableEq, Repr

/-- Embedding of the scheduling skeleton of `loop()`: `currentTime`
is read once; each task fires when `currentTime - lastRun` (wrapping
unsigned subtraction) is at least its interval, and firing writes
`currentTime` into the task timer.  The record-write and display tasks
use the literal interval `1000`. -/
def loopPass (now : Nat) (t : SchedTimers) : LoopResult :=
  let gRun := GPS_UPDATE_INTERVAL ≤ usub now t.lastGpsUpdate
  let iRun := SENSOR_UPDATE_INTERVAL ≤ usub now t.lastSensorUpdate
  let pRun := PIEZO_UPDATE_INTERVAL ≤ usub now t.lastPiezoUpdate
  let lRun := 1000 ≤ usub now t.lastLogTime
  let dRun := 1000 ≤ usub now t.lastDisplayUpdate
  { timers :=
      { lastGpsUpdate := if gRun then now else t.lastGpsUpdate
        lastSensorUpdate := if iRun then now else t.lastSensorUpdate
        lastPiezoUpdate := if pRun then now else t.lastPiezoUpdate
        lastLogTime := if lRun then now else t.lastLogTime
        lastDisplayUpdate := if dRun then now else t.lastDisplayUpdate }
    ranGps := decide gRun
    ranImu := decide iRun
    ranPiezo := decide pRun
    ranLog := decide lRun
    ranDisplay := decide dRun }

/-- The shared state a record-write tick serializes: the three IMU
slots, the GPS state and the step counters. -/
structure Snapshot where
  imu : Fin NUM_IMUS → SensorData
  gpsD : GPSData
  steps : StepData

/-- One line appended to `/gait_data.csv`: either the header row or one
data record built from the snapshot of shared state (the CSV text
itself is presentational and abstracted to the data it prints). -/
inductive LogLine where
  | header : LogLine
  | record : Snapshot → LogLine

/-- The in-memory flag `bool headerWritten = false;`. -/
structure LoggerState where
  headerWritten : Bool

/-- Embedding of `logData()`.  `openOk` tells whether
`SD.open("/gait_data.csv", FILE_APPEND)` yielded a usable handle.  The
result is the new logger state, the lines appended during the call (in
order), and whether the open error was reported.  On failure nothing is
appended, the flag is untouched and the error is reported; on success
the header is emitted first when `headerWritten` is still false, then
one record. -/
def logData (openOk : Bool) (snap : Snapshot) (st : LoggerState) :
    LoggerState × List LogLine × Bool :=
  if openOk then
    if st.headerWritten then
      (st, [LogLine.record snap], false)
    else
      (⟨true⟩, [LogLine.header, LogLine.record snap], false)
  else
    (st, [], true)

/-- Running the record-write task over a sequence of ticks, concatenating
the appended lines in order. -/
def runLog : List (Bool × Snapshot) → LoggerState → LoggerState × List LogLine
  | [], st => (st, [])
  | p :: rest, st =>
    let r := logData p.1 p.2 st
    let tail := runLog rest r.1
    (tail.1, r.2.1 ++ tail.2)

/-- Number of header rows in a list of appended lines. -/
def countHeaders (ls : List LogLine) : Nat :=
  ls.countP (fun l => match l with | LogLine.header => true | _ => false)

theorem countHeaders_nil : countHeaders [] = 0 := rfl

theorem countHeaders_header (ls : List LogLine) :
    countHeaders (LogLine.header :: ls) = countHeaders ls + 1 := by
  simp [countHeaders]

theorem countHeaders_record (snap : Snapshot) (ls : List LogLine) :
    countHeaders (LogLine.record snap :: ls) = countHeaders ls := by
  simp [countHeaders]

theorem runLog_headerCount (ticks : List (Bool × Snapshot))
    (st : LoggerState) :
    countHeaders (runLog ticks st).2 =
      (if st.headerWritten then 0
       else if ticks.any (fun p => p.1) then 1 else 0) := by
  induction ticks generalizing st with
  | nil =>
    cases st with
    | mk hw => cases hw <;> simp [runLog, countHeaders_nil]
  | cons p rest ih =>
    obtain ⟨ok, snap⟩ := p
    obtain ⟨hw⟩ := st
    cases ok with
    | false =>
      show countHeaders (runLog rest ⟨hw⟩).2 = _
      rw [ih ⟨hw⟩]
      cases hw <;> simp
    | true =>
      cases hw with
      | true =>
        show countHeaders (LogLine.record snap :: (runLog rest ⟨true⟩).2) = _
        rw [countHeaders_record, ih ⟨true⟩]
        simp
      | false =>
        show countHeaders
            (LogLine.header :: LogLine.record snap ::
              (runLog rest ⟨true⟩).2) = _
        rw [countHeaders_header, countHeaders_record, ih ⟨true⟩]
        simp

theorem leftFootDetect_accept (now : Nat) (lv : Int) (s : StepData)
    (h : leftAccepts s now lv) :
    (leftFootDetect now lv s).lastLeftStep = now ∧
    (leftFootDetect now lv s).normal_L_steps =
      (if lv < 700 then (s.normal_L_steps + 1) % MOD32 else s.normal_L_steps) ∧
    (leftFootDetect now lv s).strong_L_steps =
      (if lv < 700 then s.strong_L_steps else (s.strong_L_steps + 1) % MOD32) ∧
    (leftFootDetect now lv s).lastRightStep = s.lastRightStep ∧
    (leftFootDetect now lv s).normal_R_steps = s.normal_R_steps ∧
    (leftFootDetect now lv s).strong_R_steps = s.strong_R_steps := by
  unfold leftAccepts at h
  unfold leftFootDetect
  rw [if_pos h]
  split <;> simp

theorem leftFootDetect_reject (now : Nat) (lv : Int) (s : StepData)
    (h : ¬ leftAccepts s now lv) :
    leftFootDetect now lv s = s := by
  unfold leftAccepts at h
  unfold leftFootDetect
  rw [if_neg h]

theorem rightFootDetect_accept (now : Nat) (rv : Int) (s : StepData)
    (h : rightAccepts s now rv) :
    (rightFootDetect now rv s).lastRightStep = now ∧
    (rightFootDetect now rv s).normal_R_steps =
      (if rv < 120 then (s.normal_R_steps + 1) % MOD32 else s.normal_R_steps) ∧
    (rightFootDetect now rv s).strong_R_steps =
      (if rv < 120 then s.strong_R_steps else (s.strong_R_steps + 1) % MOD32) ∧
    (rightFootDetect now rv s).lastLeftStep = s.lastLeftStep ∧
    (rightFootDetect now rv s).normal_L_steps = s.normal_L_steps ∧
    (rightFootDetect now rv s).strong_L_steps = s.strong_L_steps := by
  unfold rightAccepts at h
  unfold rightFootDetect
  rw [if_pos h]
  split <;> simp

theorem rightFootDetect_reject (now : Nat) (rv : Int) (s : StepData)
    (h : ¬ rightAccepts s now rv) :
    rightFootDetect now rv s = s := by
  unfold rightAccepts at h
  unfold rightFootDetect
  rw [if_neg h]

theorem rightFootDetect_left_fields (now : Nat) (rv : Int) (s : StepData) :
    (rightFootDetect now rv s).lastLeftStep = s.lastLeftStep ∧
    (rightFootDetect now rv s).normal_L_steps = s.normal_L_steps ∧
    (rightFootDetect now rv s).strong_L_steps = s.strong_L_steps := by
  unfold rightFootDetect
  split
  · split <;> simp
  · exact ⟨rfl, rfl, rfl⟩

theorem leftFootDetect_right_fields (now : Nat) (lv : Int) (s : StepData) :
    (leftFootDetect now lv s).lastRightStep = s.lastRightStep ∧
    (leftFootDetect now lv s).normal_R_steps = s.normal_R_steps ∧
    (leftFootDetect now lv s).strong_R_steps = s.strong_R_steps := by
  unfold leftFootDetect
  split
  · split <;> simp
  · exact ⟨rfl, rfl, rfl⟩

/-- Claim C4: starting from the all-zero initial `StepData`, after any
sequence of `readPiezoSensors` calls (with any analog readings and clock
values), `totalSteps` equals the `uint32` sum
`normal_L_steps + normal_R_steps + strong_L_steps + strong_R_steps`, and
every `readPiezoSensors` call preserves this equality. -/
theorem C4_total_equals_sum_of_classified :
    stepInv stepDataInit ∧
    (∀ (s : StepData) (now : Nat) (lv rv : Int),
      stepInv s → stepInv (readPiezoSensors now lv rv s)) ∧
    (∀ inputs : List (Nat × Int × Int), stepInv (runPiezo inputs stepDataInit)) :=
  ⟨by decide,
   fun s now lv rv h => stepInv_preserved s now lv rv h,
   fun inputs => stepInv_runPiezo inputs stepDataInit (by decide)⟩

/-- Witness for C4: the preservation part applied at one concrete call
of `readPiezoSensors` from the initial state. -/
theorem C4_total_equals_sum_of_classified_witness :
    stepInv (readPiezoSensors 300 650 90 stepDataInit) :=
  C4_total_equals_sum_of_classified.2.1 stepDataInit 300 650 90 (by decide)

/-- Counterexample for C5: the claim says an above-threshold pulse is
accepted exactly when at least 200 ms have elapsed since the last
accepted step on that channel.  Here exactly 200 ms have elapsed on the
left channel (last accepted at clock 0, pulse of value 650 > 600 at
clock 200), yet the code, whose guard is the strict comparison
`(currentMillis - last) > DEBOUNCE_TIME`, accepts nothing: the state is
returned unchanged. -/
theorem C5_counterexample :
    usub 200 stepDataInit.lastLeftStep = 200 ∧ ((600 : Int) < 650) ∧
    readPiezoSensors 200 650 0 stepDataInit = stepDataInit := by
  decide

/-- Claim C5 as amended: on either channel an above-threshold pulse is
accepted exactly when strictly more than 200 ms (the code guard is
`> DEBOUNCE_TIME`) has elapsed since the last accepted step of that channel,
in wrapping 32-bit clock arithmetic; acceptance classifies the pulse by
the strong threshold and stamps the channel timer with the current
clock.  Consequently, of two above-threshold pulses on one channel less
than 200 ms apart, if the first is accepted the second is rejected, so
at most one of the two is ever accepted. -/
theorem C5_amended_strict_debounce :
    (∀ (s : StepData) (now : Nat) (lv rv : Int),
      leftAccepts s now lv →
        (readPiezoSensors now lv rv s).lastLeftStep = now ∧
        (readPiezoSensors now lv rv s).normal_L_steps =
          (if lv < 700 then (s.normal_L_steps + 1) % MOD32
           else s.normal_L_steps) ∧
        (readPiezoSensors now lv rv s).strong_L_steps =
          (if lv < 700 then s.strong_L_steps
           else (s.strong_L_steps + 1) % MOD32)) ∧
    (∀ (s : StepData) (now : Nat) (lv rv : Int),
      ¬ leftAccepts s now lv →
        (readPiezoSensors now lv rv s).lastLeftStep = s.lastLeftStep ∧
        (readPiezoSensors now lv rv s).normal_L_steps = s.normal_L_steps ∧
        (readPiezoSensors now lv rv s).strong_L_steps = s.strong_L_steps) ∧
    (∀ (s : StepData) (now : Nat) (lv rv : Int),
      rightAccepts (leftFootDetect now lv s) now rv →
        (readPiezoSensors now lv rv s).lastRightStep = now ∧
        (readPiezoSensors now lv rv s).normal_R_steps =
          (if rv < 120 then (s.normal_R_steps + 1) % MOD32
           else s.normal_R_steps) ∧
        (readPiezoSensors now lv rv s).strong_R_steps =
          (if rv < 120 then s.strong_R_steps
           else (s.strong_R_steps + 1) % MOD32)) ∧
    (∀ (s : StepData) (now : Nat) (lv rv : Int),
      ¬ rightAccepts (leftFootDetect now lv s) now rv →
        (readPiezoSensors now lv rv s).lastRightStep = s.lastRightStep ∧
        (readPiezoSensors now lv rv s).normal_R_steps = s.normal_R_steps ∧
        (readPiezoSensors now lv rv s).strong_R_steps = s.strong_R_steps) ∧
    (∀ (s : StepData) (t1 t2 : Nat) (lv1 lv2 rv1 : Int),
      usub t2 t1 < 200 → leftAccepts s t1 lv1 →
        ¬ leftAccepts (readPiezoSensors t1 lv1 rv1 s) t2 lv2) ∧
    (∀ (s : StepData) (t1 t2 : Nat) (lv1 rv1 rv2 : Int),
      usub t2 t1 < 200 → rightAccepts (leftFootDetect t1 lv1 s) t1 rv1 →
        ¬ rightAccepts (readPiezoSensors t1 lv1 rv1 s) t2 rv2) := by
  refine ⟨?_, ?_, ?_, ?_, ?_, ?_⟩
  · intro s now lv rv h
    have hl := leftFootDetect_accept now lv s h
    have hr := rightFootDetect_left_fields now rv (leftFootDetect now lv s)
    unfold readPiezoSensors
    exact ⟨hr.1.trans hl.1, hr.2.1.trans hl.2.1, hr.2.2.trans hl.2.2.1⟩
  · intro s now lv rv h
    have hl := leftFootDetect_reject now lv s h
    have hr := rightFootDetect_left_fields now rv (leftFootDetect now lv s)
    unfold readPiezoSensors
    rw [hl] at hr ⊢
    exact hr
  · intro s now lv rv h
    have hr := rightFootDetect_accept now rv (leftFootDetect now lv s) h
    have hl := leftFootDetect_right_fields now lv s
    unfold readPiezoSensors
    rw [hl.2.1, hl.2.2] at hr
    exact ⟨hr.1, hr.2.1, hr.2.2.1⟩
  · intro s now lv rv h
    have hr := rightFootDetect_reject now rv (leftFootDetect now lv s) h
    have hl := leftFootDetect_right_fields now lv s
    unfold readPiezoSensors
    rw [hr]
    exact hl
  · intro s t1 t2 lv1 lv2 rv1 hclose hacc
    have hl := leftFootDetect_accept t1 lv1 s hacc
    have hr := rightFootDetect_left_fields t1 rv1 (leftFootDetect t1 lv1 s)
    intro hacc2
    have hstamp : (readPiezoSensors t1 lv1 rv1 s).lastLeftStep = t1 :=
      hr.1.trans hl.1
    unfold leftAccepts at hacc2
    rw [hstamp] at hacc2
    have := hacc2.2
    unfold DEBOUNCE_TIME at this
    omega
  · intro s t1 t2 lv1 rv1 rv2 hclose hacc
    have hr := rightFootDetect_accept t1 rv1 (leftFootDetect t1 lv1 s) hacc
    intro hacc2
    have hstamp : (readPiezoSensors t1 lv1 rv1 s).lastRightStep = t1 := hr.1
    unfold rightAccepts at hacc2
    rw [hstamp] at hacc2
    have := hacc2.2
    unfold DEBOUNCE_TIME at this
    omega

/-- Witness for C5 as amended: a concrete accepted left pulse (650 at
clock 300 from the initial state) stamps the left timer and counts one
normal left step, and a second pulse 150 ms later is rejected. -/
theorem C5_amended_strict_debounce_witness :
    ((readPiezoSensors 300 650 0 stepDataInit).lastLeftStep = 300 ∧
      (readPiezoSensors 300 650 0 stepDataInit).normal_L_steps =
        (if (650 : Int) < 700 then (stepDataInit.normal_L_steps + 1) % MOD32
         else stepDataInit.normal_L_steps) ∧
      (readPiezoSensors 300 650 0 stepDataInit).strong_L_steps =
        (if (650 : Int) < 700 then stepDataInit.strong_L_steps
         else (stepDataInit.strong_L_steps + 1) % MOD32)) ∧
    ¬ leftAccepts (readPiezoSensors 300 650 0 stepDataInit) 450 650 :=
  ⟨C5_amended_strict_debounce.1 stepDataInit 300 650 0 (by decide),
   C5_amended_strict_debounce.2.2.2.2.1 stepDataInit 300 450 650 650 0
     (by decide) (by decide)⟩

theorem atan2_pos (y x : ℝ) (hy : 0 < y) (hx : 0 ≤ x) : 0 < atan2 y x := by
  unfold atan2
  have hpi := Real.pi_pos
  split
  · next hx0 =>
    have h0 : Real.arctan 0 < Real.arctan (y / x) :=
      Real.arctan_strictMono (div_pos hy hx0)
    simpa [Real.arctan_zero] using h0
  · next hx0 =>
    have hxe : x = 0 := le_antisymm (not_lt.mp hx0) hx
    split
    · next h => exact absurd h.1 (by rw [hxe]; exact lt_irrefl 0)
    · split
      · next h => exact absurd h.1 (by rw [hxe]; exact lt_irrefl 0)
      · split
        · linarith
        · split
          · next h => exact absurd h.2 (not_lt.mpr (le_of_lt hy))
          · next h1 h2 h3 h4 =>
            exact absurd ⟨hxe, hy⟩ h3

/-- The haversine intermediate `a` at the pair (0,0) and (0, 0.0005): the
latitude terms vanish and `a` reduces to the square of the sine of half
the longitude difference in radians. -/
theorem haversineA_at_halfmilli :
    haversineA 0 0 0 (1 / 2000) =
      Real.sin (1 / 2000 * (Real.pi / 180) / 2) *
        Real.sin (1 / 2000 * (Real.pi / 180) / 2) := by
  unfold haversineA
  norm_num

theorem calculateDistance_halfmilli_pos :
    0 < calculateDistance 0 0 0 (1 / 2000) := by
  have hpi := Real.pi_pos
  have harg : (0 : ℝ) < 1 / 2000 * (Real.pi / 180) / 2 := by positivity
  have harglt : 1 / 2000 * (Real.pi / 180) / 2 < Real.pi := by nlinarith
  have hs : 0 < Real.sin (1 / 2000 * (Real.pi / 180) / 2) :=
    Real.sin_pos_of_pos_of_lt_pi harg harglt
  have hA : 0 < haversineA 0 0 0 (1 / 2000) := by
    rw [haversineA_at_halfmilli]
    exact mul_pos hs hs
  have hy : 0 < Real.sqrt (haversineA 0 0 0 (1 / 2000)) :=
    Real.sqrt_pos.mpr hA
  have hx : 0 ≤ Real.sqrt (1 - haversineA 0 0 0 (1 / 2000)) :=
    Real.sqrt_nonneg _
  have hat := atan2_pos _ _ hy hx
  unfold calculateDistance
  nlinarith

/-- Counterexample for C1: with the stored position (0,0) and a valid,
updated fix at (0, 0.0005 degrees) reported at 5 km/h, the claim says
`updateGPS` adds the computed (strictly positive) distance to
`totalDistance`; the code instead runs the uninitialized-sentinel seed
branch, leaving `totalDistance` at 0. -/
theorem C1_counterexample :
    (processFix ⟨true, true, 0, 1 / 2000, true, 5⟩ gpsDataInit).totalDistance
        = 0 ∧
    0 < calculateDistance 0 0 0 (1 / 2000) := by
  constructor
  · rw [processFix_valid _ _ rfl rfl,
      (speedUpdate_fields _ _).2.2.1,
      positionUpdate_seed _ _ (by unfold gpsDataInit; simp)]
    rfl
  · exact calculateDistance_halfmilli_pos

/-- Claim C1 as amended: with the stored position (0,0) — the
uninitialized sentinel — a valid, updated fix at (0, 0.0005 degrees) is
adopted as the seed position with zero distance added, regardless of the
reported speed: at 5 km/h and at 1 km/h alike, the coordinates are
overwritten with the fix, `totalDistance` stays 0, and the valid speed
is recorded. -/
theorem C1_amended_zero_sentinel_seeds :
    ((processFix ⟨true, true, 0, 1 / 2000, true, 5⟩ gpsDataInit).latitude = 0 ∧
     (processFix ⟨true, true, 0, 1 / 2000, true, 5⟩ gpsDataInit).longitude
        = 1 / 2000 ∧
     (processFix ⟨true, true, 0, 1 / 2000, true, 5⟩ gpsDataInit).totalDistance
        = 0 ∧
     (processFix ⟨true, true, 0, 1 / 2000, true, 5⟩ gpsDataInit).speed = 5) ∧
    ((processFix ⟨true, true, 0, 1 / 2000, true, 1⟩ gpsDataInit).latitude = 0 ∧
     (processFix ⟨true, true, 0, 1 / 2000, true, 1⟩ gpsDataInit).longitude
        = 1 / 2000 ∧
     (processFix ⟨true, true, 0, 1 / 2000, true, 1⟩ gpsDataInit).totalDistance
        = 0 ∧
     (processFix ⟨true, true, 0, 1 / 2000, true, 1⟩ gpsDataInit).speed = 1) := by
  constructor <;>
  · rw [processFix_valid _ _ rfl rfl,
      positionUpdate_seed _ _ (by unfold gpsDataInit; simp)]
    refine ⟨(speedUpdate_fields _ _).1.trans rfl,
      (speedUpdate_fields _ _).2.1.trans rfl,
      (speedUpdate_fields _ _).2.2.1.trans rfl,
      ((speedUpdate_fields _ _).2.2.2).trans ?_⟩
    rfl

/-- Claim C2: for a valid, updated fix with a valid reported speed,
processed while both stored coordinates are nonzero, the fix is adopted
(position overwritten, distance added) exactly when the haversine
distance exceeds 50 m and the reported speed exceeds 2 km/h; when it is
not adopted, latitude, longitude and `totalDistance` are unchanged while
the speed is still recorded from the fix. -/
theorem C2_adopt_iff_distance_and_speed (g : GPSData) (f : GPSFix)
    (hv : f.locValid = true) (hu : f.locUpdated = true)
    (hs : f.speedValid = true)
    (hlat : g.latitude ≠ 0) (hlon : g.longitude ≠ 0) :
    (calculateDistance g.latitude g.longitude f.lat f.lng >
          GPS_DISTANCE_THRESHOLD ∧ f.speedKmph > 2 →
      (processFix f g).latitude = f.lat ∧
      (processFix f g).longitude = f.lng ∧
      (processFix f g).totalDistance = g.totalDistance +
        calculateDistance g.latitude g.longitude f.lat f.lng ∧
      (processFix f g).speed = f.speedKmph) ∧
    (¬ (calculateDistance g.latitude g.longitude f.lat f.lng >
          GPS_DISTANCE_THRESHOLD ∧ f.speedKmph > 2) →
      (processFix f g).latitude = g.latitude ∧
      (processFix f g).longitude = g.longitude ∧
      (processFix f g).totalDistance = g.totalDistance ∧
      (processFix f g).speed = f.speedKmph) := by
  rw [processFix_valid _ _ hv hu]
  constructor
  · intro hc
    rw [positionUpdate_adopt _ _ ⟨hlat, hlon⟩ ⟨hc.1, hs, hc.2⟩]
    refine ⟨(speedUpdate_fields _ _).1.trans rfl,
      (speedUpdate_fields _ _).2.1.trans rfl,
      (speedUpdate_fields _ _).2.2.1.trans rfl,
      ((speedUpdate_fields _ _).2.2.2).trans ?_⟩
    rw [hs]
    rfl
  · intro hc
    rw [positionUpdate_keep _ _ ⟨hlat, hlon⟩
      (fun hcc => hc ⟨hcc.1, hcc.2.2⟩)]
    refine ⟨(speedUpdate_fields _ _).1,
      (speedUpdate_fields _ _).2.1,
      (speedUpdate_fields _ _).2.2.1,
      ((speedUpdate_fields _ _).2.2.2).trans ?_⟩
    rw [hs]
    rfl

/-- Witness for C2: stored position (1,1), fix at (3,4) with valid speed
1 km/h; 1 km/h does not exceed 2 km/h, so the position and total are
unchanged and the speed becomes 1. -/
theorem C2_adopt_iff_distance_and_speed_witness :
    (processFix ⟨true, true, 3, 4, true, 1⟩ (⟨1, 1, 0, 0⟩ : GPSData)).latitude
        = 1 ∧
    (processFix ⟨true, true, 3, 4, true, 1⟩ (⟨1, 1, 0, 0⟩ : GPSData)).longitude
        = 1 ∧
    (processFix ⟨true, true, 3, 4, true, 1⟩
        (⟨1, 1, 0, 0⟩ : GPSData)).totalDistance = 0 ∧
    (processFix ⟨true, true, 3, 4, true, 1⟩ (⟨1, 1, 0, 0⟩ : GPSData)).speed
        = 1 := by
  have h := (C2_adopt_iff_distance_and_speed ⟨1, 1, 0, 0⟩
    ⟨true, true, 3, 4, true, 1⟩ rfl rfl rfl
    (by norm_num) (by norm_num)).2
    (fun hc => by norm_num at hc)
  exact h

/-- Counterexample for C3: the claim says only the state with BOTH
stored coordinates exactly zero counts as having no prior fix.  In the
state (0, 10) — latitude zero, longitude 10, so a prior fix exists under
the reading of the claim — a valid, updated fix at (5,5) with reported speed
1 km/h arrives.  Since 1 km/h does not exceed 2 km/h, the claim (with
the C2 adoption rule) requires the position to stay (0, 10); the code
instead takes the seed branch (its test is `latitude != 0 &&
longitude != 0`) and overwrites the position with (5,5). -/
theorem C3_counterexample :
    ((⟨0, 10, 0, 0⟩ : GPSData).longitude ≠ 0) ∧
    ¬ ((1 : ℝ) > 2) ∧
    (processFix ⟨true, true, 5, 5, true, 1⟩ (⟨0, 10, 0, 0⟩ : GPSData)).latitude
        = 5 ∧
    (processFix ⟨true, true, 5, 5, true, 1⟩
        (⟨0, 10, 0, 0⟩ : GPSData)).longitude = 5 := by
  refine ⟨by norm_num, by norm_num, ?_, ?_⟩ <;>
  · rw [processFix_valid _ _ rfl rfl,
      positionUpdate_seed _ _ (by simp)]
    first
    | exact (speedUpdate_fields _ _).1.trans rfl
    | exact (speedUpdate_fields _ _).2.1.trans rfl

/-- Claim C3 as amended: a completed, valid, updated fix is adopted
unconditionally as the seed position with no distance added whenever AT
LEAST ONE stored coordinate is exactly zero (the code treats the state
as uninitialized unless both are nonzero), not only when both are. -/
theorem C3_amended_either_zero_seeds (g : GPSData) (f : GPSFix)
    (hv : f.locValid = true) (hu : f.locUpdated = true)
    (h : g.latitude = 0 ∨ g.longitude = 0) :
    (processFix f g).latitude = f.lat ∧
    (processFix f g).longitude = f.lng ∧
    (processFix f g).totalDistance = g.totalDistance := by
  rw [processFix_valid _ _ hv hu,
    positionUpdate_seed _ _ (by
      intro hc
      rcases h with h | h
      · exact hc.1 h
      · exact hc.2 h)]
  exact ⟨(speedUpdate_fields _ _).1.trans rfl,
    (speedUpdate_fields _ _).2.1.trans rfl,
    (speedUpdate_fields _ _).2.2.1.trans rfl⟩

/-- Witness for C3 as amended: from the all-zero initial GPS state, a
fix at (45, 90) with 9 km/h is adopted as the seed and `totalDistance`
stays 0. -/
theorem C3_amended_either_zero_seeds_witness :
    (processFix ⟨true, true, 45, 90, true, 9⟩ gpsDataInit).latitude = 45 ∧
    (processFix ⟨true, true, 45, 90, true, 9⟩ gpsDataInit).longitude = 90 ∧
    (processFix ⟨true, true, 45, 90, true, 9⟩ gpsDataInit).totalDistance
        = 0 := by
  have h := C3_amended_either_zero_seeds gpsDataInit
    ⟨true, true, 45, 90, true, 9⟩ rfl rfl (Or.inl rfl)
  exact h

/-- Claim C6: over any sequence of fixes processed by one or more
`updateGPS` calls, the cumulative `totalDistance` never decreases. -/
theorem C6_totalDistance_monotone (fixes : List GPSFix) (g : GPSData) :
    g.totalDistance ≤ (updateGPS fixes g).totalDistance := by
  induction fixes generalizing g with
  | nil => exact le_refl _
  | cons f rest ih =>
    exact le_trans (processFix_totalDistance_mono f g) (ih (processFix f g))

/-- Claim C10: while either stored coordinate is exactly zero, no fix
ever adds distance: `totalDistance` is unchanged by `processFix`, and a
valid, updated fix merely re-seeds the stored coordinates. -/
theorem C10_zero_coordinate_adds_no_distance (g : GPSData) (f : GPSFix)
    (h : g.latitude = 0 ∨ g.longitude = 0) :
    (processFix f g).totalDistance = g.totalDistance ∧
    (f.locValid = true → f.locUpdated = true →
      (processFix f g).latitude = f.lat ∧
      (processFix f g).longitude = f.lng) := by
  by_cases hvu : f.locValid = true ∧ f.locUpdated = true
  · have hseed : ¬ (g.latitude ≠ 0 ∧ g.longitude ≠ 0) := by
      intro hc
      rcases h with h | h
      · exact hc.1 h
      · exact hc.2 h
    rw [processFix_valid _ _ hvu.1 hvu.2, positionUpdate_seed _ _ hseed]
    exact ⟨(speedUpdate_fields _ _).2.2.1.trans rfl,
      fun _ _ => ⟨(speedUpdate_fields _ _).1.trans rfl,
        (speedUpdate_fields _ _).2.1.trans rfl⟩⟩
  · rw [processFix_invalid _ _ hvu]
    exact ⟨rfl, fun hv hu => absurd ⟨hv, hu⟩ hvu⟩

/-- Witness for C10: stored state (0, 7) with accumulated distance 3; a
valid fix at (8, 9) re-seeds the position and leaves the total at 3. -/
theorem C10_zero_coordinate_adds_no_distance_witness :
    (processFix ⟨true, true, 8, 9, true, 4⟩
        (⟨0, 7, 0, 3⟩ : GPSData)).totalDistance = 3 ∧
    (processFix ⟨true, true, 8, 9, true, 4⟩ (⟨0, 7, 0, 3⟩ : GPSData)).latitude
        = 8 ∧
    (processFix ⟨true, true, 8, 9, true, 4⟩ (⟨0, 7, 0, 3⟩ : GPSData)).longitude
        = 9 := by
  have h := C10_zero_coordinate_adds_no_distance (⟨0, 7, 0, 3⟩ : GPSData)
    ⟨true, true, 8, 9, true, 4⟩ (Or.inl rfl)
  exact ⟨h.1, (h.2 rfl rfl).1, (h.2 rfl rfl).2⟩

/-- Claim C7: after every successful IMU read in `readAllIMUs`, each
calibrated axis equals exactly the stored raw axis minus the build-time
calibration offset of that sensor — columns 0-2 of the offset row for the
accelerometer and columns 3-5 for the gyroscope. -/
theorem C7_calibration_exact (events : Fin NUM_IMUS → Option IMUReading)
    (prev : Fin NUM_IMUS → SensorData) (i : Fin NUM_IMUS) (e : IMUReading)
    (h : events i = some e) (j : Fin 3) :
    (readAllIMUs events prev i).calibratedAccel j =
      (readAllIMUs events prev i).accel j -
        CALIBRATION_OFFSETS i (Fin.castLE (by omega) j) ∧
    (readAllIMUs events prev i).calibratedGyro j =
      (readAllIMUs events prev i).gyro j -
        CALIBRATION_OFFSETS i ⟨j.val + 3, by omega⟩ := by
  unfold readAllIMUs
  rw [h]
  exact ⟨rfl, rfl⟩

/-- Witness for C7: sensor 0 reads raw axes (1,2,3)/(4,5,6); the first
calibrated accelerometer axis is the raw value 1 minus the offset
`0.12 - 1.2280`, and the first calibrated gyro axis is 4 minus
`0.005 - 0.0694`. -/
theorem C7_calibration_exact_witness :
    (readAllIMUs (fun _ => some ⟨![1, 2, 3], ![4, 5, 6]⟩)
        (fun _ => ⟨![0, 0, 0], ![0, 0, 0], ![0, 0, 0], ![0, 0, 0]⟩)
        ⟨0, by decide⟩).calibratedAccel ⟨0, by decide⟩
      = 1 - (0.12 - 1.2280 : ℚ) ∧
    (readAllIMUs (fun _ => some ⟨![1, 2, 3], ![4, 5, 6]⟩)
        (fun _ => ⟨![0, 0, 0], ![0, 0, 0], ![0, 0, 0], ![0, 0, 0]⟩)
        ⟨0, by decide⟩).calibratedGyro ⟨0, by decide⟩
      = 4 - (0.005 - 0.0694 : ℚ) := by
  have h := C7_calibration_exact (fun _ => some ⟨![1, 2, 3], ![4, 5, 6]⟩)
    (fun _ => ⟨![0, 0, 0], ![0, 0, 0], ![0, 0, 0], ![0, 0, 0]⟩)
    ⟨0, by decide⟩ ⟨![1, 2, 3], ![4, 5, 6]⟩ rfl ⟨0, by decide⟩
  rw [h.1, h.2]
  constructor <;> rfl

/-- Claim C8: in every pass of the cooperative loop with clock value
`now`, each task runs exactly when `now - lastRun` (wrapping unsigned
subtraction) reaches its interval — 1000 ms for the position update,
100 ms for inertial sampling, 20 ms for step sampling, 1000 ms for the
record write and 1000 ms for the display refresh — and a task that
fires has its last-run timestamp set to `now` while one that does not
keeps it. -/
theorem C8_task_fires_iff_interval_elapsed (now : Nat) (t : SchedTimers) :
    GPS_UPDATE_INTERVAL = 1000 ∧ SENSOR_UPDATE_INTERVAL = 100 ∧
    PIEZO_UPDATE_INTERVAL = 20 ∧
    ((loopPass now t).ranGps = true ↔
      GPS_UPDATE_INTERVAL ≤ usub now t.lastGpsUpdate) ∧
    ((loopPass now t).ranImu = true ↔
      SENSOR_UPDATE_INTERVAL ≤ usub now t.lastSensorUpdate) ∧
    ((loopPass now t).ranPiezo = true ↔
      PIEZO_UPDATE_INTERVAL ≤ usub now t.lastPiezoUpdate) ∧
    ((loopPass now t).ranLog = true ↔ 1000 ≤ usub now t.lastLogTime) ∧
    ((loopPass now t).ranDisplay = true ↔
      1000 ≤ usub now t.lastDisplayUpdate) ∧
    (loopPass now t).timers.lastGpsUpdate =
      (if (loopPass now t).ranGps then now else t.lastGpsUpdate) ∧
    (loopPass now t).timers.lastSensorUpdate =
      (if (loopPass now t).ranImu then now else t.lastSensorUpdate) ∧
    (loopPass now t).timers.lastPiezoUpdate =
      (if (loopPass now t).ranPiezo then now else t.lastPiezoUpdate) ∧
    (loopPass now t).timers.lastLogTime =
      (if (loopPass now t).ranLog then now else t.lastLogTime) ∧
    (loopPass now t).timers.lastDisplayUpdate =
      (if (loopPass now t).ranDisplay then now else t.lastDisplayUpdate) := by
  unfold loopPass
  simp [decide_eq_true_iff, GPS_UPDATE_INTERVAL, SENSOR_UPDATE_INTERVAL,
    PIEZO_UPDATE_INTERVAL]

/-- Claim C9: the CSV header is written exactly once per process
lifetime, gated by the in-memory `headerWritten` flag — starting from
the initial `headerWritten = false`, any sequence of record-write ticks
emits the header exactly once if some tick opens the store successfully
and never otherwise — and a tick whose open fails reports the error,
appends nothing, leaves the flag unchanged and returns control so the
remaining ticks proceed. -/
theorem C9_header_once_and_open_failure_skips :
    (∀ (snap : Snapshot) (st : LoggerState),
      logData false snap st = (st, [], true)) ∧
    (∀ ticks : List (Bool × Snapshot),
      countHeaders (runLog ticks ⟨false⟩).2 =
        (if ticks.any (fun p => p.1) then 1 else 0)) := by
  constructor
  · intro snap st
    rfl
  · intro ticks
    simpa using runLog_headerCount ticks ⟨false⟩

end GaitMonitor
